import Mathlib

/-!
Verification of the ProofScape screenshot tool (Go sources under
`config/config.go`, `screenshot/screenshoter.go`, `screenshot/utils.go`)
against its natural-language specification.

Strings from the Go code are modelled as `List Char` (`Str`); byte strings
(for the byte-exact filename truncation) as `List Nat`.  Floating-point
page measurements read from the DOM are modelled as exact rationals `ℚ`:
all arithmetic the code performs on them (`math.Ceil` of a quotient,
multiplication by a tile index, comparison, subtraction) is exact real
arithmetic on the value ranges involved.
-/

namespace ProofScape

/-- Go strings, modelled as lists of characters. -/
abbrev Str := List Char

/-! ## Data model (config/config.go) -/

/-- `config.Cookie`: name, value, optional domain/path, flags. -/
structure Cookie where
  name : Str
  value : Str
  domain : Str
  path : Str
  secure : Bool
  httpOnly : Bool
deriving DecidableEq

/-- `config.LocalStorage`: key/value pair. -/
structure LocalStorageEntry where
  key : Str
  value : Str
deriving DecidableEq

/-- `config.Viewport`: width and height in pixels. -/
structure Viewport where
  width : ℤ
  height : ℤ
deriving DecidableEq

/-- `config.CookieProfile`: a named set of cookies and localStorage values. -/
structure CookieProfile where
  name : Str
  cookies : List Cookie
  localStorage : List LocalStorageEntry
deriving DecidableEq

/-- `config.URLConfig`: configuration of one capture target. -/
structure URLConfig where
  name : Str
  url : Str
  viewports : List Viewport
  delay : ℤ
  cookies : List Cookie
  localStorage : List LocalStorageEntry
  cookieProfileID : Str
deriving DecidableEq

/-- `config.Config` (the fields the verified routines consult). -/
structure Config where
  urls : List URLConfig
  defaultCookies : List Cookie
  defaultStorage : List LocalStorageEntry
  cookieProfiles : List CookieProfile
  concurrency : ℕ
deriving DecidableEq

/-! ## Segmentation engine (screenshoter.go, captureViewportScreenshots)

`pageHeight` is read from the DOM as a float64; `viewportHeight` is the
configured viewport height converted to float64.  Both are modelled as `ℚ`.
-/

/-- Lines 1036-1040: `viewportCount := int(math.Ceil(pageHeight / viewportHeight))`
followed by `if viewportCount < 1 then viewportCount = 1`. -/
def tileCount (pageHeight viewportHeight : ℚ) : ℤ :=
  max ⌈pageHeight / viewportHeight⌉ 1

/-- Lines 1086-1093: the scroll offset of tile `i` (0-indexed) in the
multi-tile branch: `scrollPos := i * viewportHeight`, and for the final tile
only, if `scrollPos + viewportHeight > pageHeight` then
`scrollPos = max 0 (pageHeight - viewportHeight)`. -/
def tileOffset (pageHeight viewportHeight : ℚ) (count i : ℕ) : ℚ :=
  let scrollPos : ℚ := (i : ℚ) * viewportHeight
  if i = count - 1 ∧ scrollPos + viewportHeight > pageHeight then
    max 0 (pageHeight - viewportHeight)
  else
    scrollPos

/-- Lines 1045-1123: the sequence of scroll offsets captured.  The branch
`pageHeight <= viewportHeight || viewportCount == 1` captures a single tile
at offset 0; otherwise tiles `0 .. viewportCount-1` are captured at
`tileOffset`. -/
def tileOffsets (pageHeight viewportHeight : ℚ) : List ℚ :=
  if pageHeight ≤ viewportHeight ∨ tileCount pageHeight viewportHeight = 1 then
    [0]
  else
    (List.range (tileCount pageHeight viewportHeight).toNat).map
      (tileOffset pageHeight viewportHeight (tileCount pageHeight viewportHeight).toNat)

/-- Lines 1047 and 1095: the `-{n}` suffixes of the tile image filenames:
`-1` in the single-tile branch, `-(i+1)` for tile `i` otherwise. -/
def tileNumbers (pageHeight viewportHeight : ℚ) : List ℕ :=
  if pageHeight ≤ viewportHeight ∨ tileCount pageHeight viewportHeight = 1 then
    [1]
  else
    (List.range (tileCount pageHeight viewportHeight).toNat).map (· + 1)

/-! ## Filename sanitization (utils.go, sanitizeFilename)

Modelled on bytes (`List Nat`): the replaced characters are all single-byte
ASCII, and Go's `len`/slicing count bytes. -/

/-- The bytes of the regexp character class in utils.go line 11:
backslash, slash, colon, asterisk, question mark, double quote,
less-than, greater-than, pipe. -/
def illegalFilenameBytes : List ℕ := [92, 47, 58, 42, 63, 34, 60, 62, 124]

/-- utils.go lines 9-23: replace every illegal byte with an underscore
(byte 95), replace every space (byte 32) with an underscore, and truncate
to the first 100 bytes when longer. -/
def sanitizeFilename (filename : List ℕ) : List ℕ :=
  let replaced :=
    filename.map (fun b => if b ∈ illegalFilenameBytes then 95 else b)
  let replaced2 :=
    replaced.map (fun b => if b = 32 then 95 else b)
  if replaced2.length > 100 then replaced2.take 100 else replaced2

/-! ## Domain extraction (screenshoter.go, extractDomainFromURL) -/

/-- Go `strings.Index(url, c)` guarded by `idx > 0` followed by
`url = url[:idx]` (screenshoter.go lines 1147-1153): the string is cut at
the first occurrence of `c` only when that occurrence is at a position
strictly greater than 0. -/
def cutAtCharAfterStart (c : Char) (url : Str) : Str :=
  match url.findIdx? (· == c) with
  | some i => if i > 0 then url.take i else url
  | none => url

/-- screenshoter.go lines 1136-1156: strip a leading scheme, then a leading
`www.`, then cut at the first `/` (when not at position 0), then at the
first `:` (when not at position 0). -/
def extractDomainFromURL (url : Str) : Str :=
  let u1 :=
    if ("http://".toList).isPrefixOf url then url.drop 7
    else if ("https://".toList).isPrefixOf url then url.drop 8
    else url
  let u2 := if ("www.".toList).isPrefixOf u1 then u1.drop 4 else u1
  let u3 := cutAtCharAfterStart '/' u2
  cutAtCharAfterStart ':' u3

/-- Cutting exactly as the claim words it: remove everything from the first
occurrence of `c` onward, wherever that occurrence is. -/
def cutAtCharClaimed (c : Char) (url : Str) : Str :=
  match url.findIdx? (· == c) with
  | some i => url.take i
  | none => url

/-- The host computation as the claim words it (used only to compare with
`extractDomainFromURL`): strip scheme, strip `www.`, remove everything from
the first `/` onward, remove everything from the first `:` onward. -/
def claimedDomainFromURL (url : Str) : Str :=
  let u1 :=
    if ("http://".toList).isPrefixOf url then url.drop 7
    else if ("https://".toList).isPrefixOf url then url.drop 8
    else url
  let u2 := if ("www.".toList).isPrefixOf u1 then u1.drop 4 else u1
  let u3 := cutAtCharClaimed '/' u2
  cutAtCharClaimed ':' u3

/-! ## State primer (screenshoter.go, setCookiesAndLocalStorage) -/

/-- screenshoter.go lines 256-261: a cookie's effective domain — the
configured domain, or the domain extracted from the target URL when the
configured one is empty. -/
def effectiveDomain (c : Cookie) (url : Str) : Str :=
  if c.domain = [] then extractDomainFromURL url else c.domain

/-- screenshoter.go lines 263-267: a cookie's effective path — the
configured path, or "/" when the configured one is empty. -/
def effectivePath (c : Cookie) : Str :=
  if c.path = [] then "/".toList else c.path

/-- A cookie as read back from the browser session (cdproto Cookie):
the fields the primer consults. -/
structure SessionCookie where
  name : Str
  value : Str
  domain : Str
  path : Str
deriving DecidableEq

/-- screenshoter.go line 245: the lookup key of the existing-cookie map,
`cookie.Name + cookie.Path + cookie.Domain` (string concatenation). -/
def sessionCookieKey (c : SessionCookie) : Str :=
  c.name ++ c.path ++ c.domain

/-- screenshoter.go line 270: the lookup key of a configured cookie,
`cookie.Name + path + domain` with the effective path and domain. -/
def configCookieKey (c : Cookie) (url : Str) : Str :=
  c.name ++ effectivePath c ++ effectiveDomain c url

/-- A Go `map[string]string` built by inserting the pairs in order, later
insertions overwriting earlier ones: lookup returns the value of the last
pair carrying the key. -/
def goMapLookup (pairs : List (Str × Str)) (k : Str) : Option Str :=
  (pairs.reverse.find? (fun p => p.1 = k)).map (·.2)

/-- screenshoter.go lines 243-247: the existing-cookie map. -/
def existingCookiePairs (existing : List SessionCookie) : List (Str × Str) :=
  existing.map (fun c => (sessionCookieKey c, c.value))

/-- screenshoter.go lines 255-291: one configured cookie is (re)set exactly
when the existing-cookie map does not carry its key with the same value. -/
def cookieNeedsSet (existing : List SessionCookie) (url : Str) (c : Cookie) : Bool :=
  !(goMapLookup (existingCookiePairs existing) (configCookieKey c url) == some c.value)

/-- The page's localStorage, modelled as an association list keyed by the
storage key. -/
def lsGet (store : List (Str × Str)) (k : Str) : Option Str :=
  (store.find? (fun p => p.1 = k)).map (·.2)

/-- `localStorage.setItem`: replace the value when the key is present,
append otherwise. -/
def lsSet (store : List (Str × Str)) (k v : Str) : List (Str × Str) :=
  if (store.find? (fun p => p.1 = k)).isSome then
    store.map (fun p => if p.1 = k then (k, v) else p)
  else
    store ++ [(k, v)]

/-- screenshoter.go lines 303-330: process the configured localStorage
entries in order against an evolving store; an entry whose key already
holds the same value is skipped, any other entry is set and marks the
storage as changed.  Returns the final store and the changed flag. -/
def applyLocalStorage (store : List (Str × Str)) :
    List LocalStorageEntry → List (Str × Str) × Bool
  | [] => (store, false)
  | e :: rest =>
    if lsGet store e.key = some e.value then
      applyLocalStorage store rest
    else
      let res := applyLocalStorage (lsSet store e.key e.value) rest
      (res.1, true)

/-- Result of one priming invocation (setCookiesAndLocalStorage). -/
structure PrimeResult where
  cookiesChanged : Bool
  storageChanged : Bool
  defaultCookiesApplied : Bool
  needsRefresh : Bool
  reloaded : Bool
deriving DecidableEq

/-- screenshoter.go lines 203-378: the decision core of
`setCookiesAndLocalStorage`.  `defaults` is `s.Config.DefaultCookies`,
`u` the target, `existing` the cookies read from the session, `store` the
page's localStorage.  `defaultCookiesApplied` (lines 216-230) is set when
some configured cookie shares its name with a default cookie;
`cookiesChanged` (lines 252-295) when some configured cookie is not already
present with the same value under the concatenated name+path+domain key;
`storageChanged` (lines 298-335) when some configured localStorage entry
did not already hold its value; the page is reloaded (line 338) when
`needsRefresh || defaultCookiesApplied`. -/
def setCookiesAndLocalStorage (defaults : List Cookie) (u : URLConfig)
    (existing : List SessionCookie) (store : List (Str × Str)) : PrimeResult :=
  let defaultCookiesApplied :=
    u.cookies.any (fun c => defaults.any (fun d => c.name == d.name))
  let cookiesChanged :=
    u.cookies.any (cookieNeedsSet existing u.url)
  let storageChanged := (applyLocalStorage store u.localStorage).2
  let needsRefresh := cookiesChanged || storageChanged
  { cookiesChanged := cookiesChanged
    storageChanged := storageChanged
    defaultCookiesApplied := defaultCookiesApplied
    needsRefresh := needsRefresh
    reloaded := needsRefresh || defaultCookiesApplied }

/-- screenshoter.go lines 869-887 (captureFullPageScreenshot): the audit
stages recorded for one full-page capture: one "before" record (line 872),
then, only when cookies or localStorage entries are configured (line 875),
the priming routine runs and unconditionally ends by emitting its record
with the caller's stage "after" (line 376). -/
def fullPageAuditStages (u : URLConfig) : List Str :=
  "before".toList ::
    (if u.cookies ≠ [] ∨ u.localStorage ≠ [] then ["after".toList] else [])

/-! ## Full-page capture (screenshoter.go, captureFullPageScreenshot) -/

/-- screenshoter.go lines 943-949: the height passed to
SetDeviceMetricsOverride — the measured scroll height, limited to 16384. -/
def fullPageTargetHeight (measuredHeight : ℤ) : ℤ :=
  if measuredHeight > 16384 then 16384 else measuredHeight

/-- screenshoter.go lines 941-951: the (width, height) passed to
SetDeviceMetricsOverride: the configured viewport width — not the measured
scroll width — and the capped measured height. -/
def fullPageOverrideDims (viewportWidth measuredWidth measuredHeight : ℤ) : ℤ × ℤ :=
  let _ := measuredWidth
  (viewportWidth, fullPageTargetHeight measuredHeight)

/-- The override as the claim words it (used only to compare with
`fullPageOverrideDims`): the measured dimensions, height capped at 16384. -/
def claimedOverrideDims (measuredWidth measuredHeight : ℤ) : ℤ × ℤ :=
  (measuredWidth, fullPageTargetHeight measuredHeight)

/-- screenshoter.go lines 955-965: the screenshot attempts.  `ok h` tells
whether a capture at override height `h` succeeds.  The first capture runs
at the capped height; on failure, when that height exceeds 8192, the
metrics are reset to height 8192 and the capture retried exactly once;
otherwise the failure is returned.  Returns the list of attempted heights
and whether the routine succeeds. -/
def fullPageCaptureAttempts (measuredHeight : ℤ) (ok : ℤ → Bool) : List ℤ × Bool :=
  let h := fullPageTargetHeight measuredHeight
  if ok h then ([h], true)
  else if h > 8192 then ([h, 8192], ok 8192)
  else ([h], false)

/-! ## Configuration defaults (config.go, validateConfig) -/

/-- config.go lines 425-431: the cookie-profile map, built by inserting
profiles in order (later ones overwrite earlier ones of the same name). -/
def profileLookup (profiles : List CookieProfile) (id : Str) : Option CookieProfile :=
  profiles.reverse.find? (fun p => p.name = id)

/-- config.go lines 451-481: the cookie/localStorage default-filling for
one target.  A target referencing a missing profile is an error; a target
referencing an existing profile receives the profile's cookies (resp.
localStorage) only when it has none of its own; a target referencing no
profile receives the default cookies (resp. default storage) only when it
has none of its own and defaults are configured. -/
def applyCookieDefaults (cfg : Config) (u : URLConfig) : Except Str URLConfig :=
  if u.cookieProfileID ≠ [] then
    match profileLookup cfg.cookieProfiles u.cookieProfileID with
    | none => .error ("references non-existent cookie profile".toList)
    | some p =>
      .ok { u with
            cookies := if u.cookies = [] then p.cookies else u.cookies
            localStorage :=
              if u.localStorage = [] then p.localStorage else u.localStorage }
  else
    .ok { u with
          cookies :=
            if u.cookies = [] ∧ cfg.defaultCookies ≠ [] then cfg.defaultCookies
            else u.cookies
          localStorage :=
            if u.localStorage = [] ∧ cfg.defaultStorage ≠ [] then cfg.defaultStorage
            else u.localStorage }

/-! ## Concurrency bounds (screenshoter.go)

The three goroutine pools all use the Go bounded-buffered-channel semaphore
idiom: a send (`sem <- struct{}{}`) acquires a slot and blocks while the
buffer is full, a receive (`<-sem`) releases it, and every unit of work is
performed between its task's acquire and release. -/

/-- screenshoter.go line 1365: `sem := make(chan struct{}, s.Config.Concurrency)`. -/
def targetSemCapacity (cfg : Config) : ℕ := cfg.concurrency

/-- screenshoter.go line 403: `viewportSem := make(chan struct{}, 3)`. -/
def viewportSemCapacity : ℕ := 3

/-- screenshoter.go line 1076: `vpSem := make(chan struct{}, 4)`. -/
def tileSemCapacity : ℕ := 4

/-- An event on one semaphore: task `t` acquires or releases a slot. -/
inductive SemEvent where
  | acquire (t : ℕ)
  | release (t : ℕ)
deriving DecidableEq

/-- The multiset of tasks holding a slot after a list of events, starting
from holders `hs`. -/
def holdersAfter (hs : List ℕ) : List SemEvent → List ℕ
  | [] => hs
  | SemEvent.acquire t :: es => holdersAfter (t :: hs) es
  | SemEvent.release t :: es => holdersAfter (hs.erase t) es

/-- Admissibility of an event trace against a buffered channel of capacity
`cap`: a send (acquire) proceeds only while fewer than `cap` slots are
held, and only a holder can release. -/
def semTraceOkB (cap : ℕ) (hs : List ℕ) : List SemEvent → Bool
  | [] => true
  | SemEvent.acquire t :: es =>
    decide (hs.length < cap) && semTraceOkB cap (t :: hs) es
  | SemEvent.release t :: es =>
    (hs.contains t) && semTraceOkB cap (hs.erase t) es

/-- Propositional form of trace admissibility. -/
abbrev semTraceOk (cap : ℕ) (hs : List ℕ) (tr : List SemEvent) : Prop :=
  semTraceOkB cap hs tr = true

/-! ## Error collection (screenshoter.go, CaptureURL and CaptureURLs)

Each level runs every scheduled task to completion, sends each failing
task's error into a buffered channel sized to the number of tasks, waits
for all of them, and then returns the first collected error, or nil when
the channel is empty. -/

/-- Lines 405-429 / 1369-1383: run every scheduled task; each task yields
its outcome (`none` = success, `some e` = failure) independently of its
siblings. -/
def runAllTasks {E : Type} (tasks : List (Unit → Option E)) : List (Option E) :=
  tasks.map (fun task => task ())

/-- Lines 416, 424, 1112, 1380: the errors sent to the collection channel,
in completion order. -/
def collectedErrors {E : Type} (outcomes : List (Option E)) : List E :=
  outcomes.filterMap id

/-- Lines 433-438 / 1389-1394: after `wg.Wait()` (resp. draining
`doneChan`), the select returns the first error in the channel, or nil. -/
def firstCollectedError {E : Type} (outcomes : List (Option E)) : Option E :=
  (collectedErrors outcomes).head?

/-! ## Theorems: segmentation and sanitization -/

/-- Claim C10: for every input string, sanitizeFilename returns a string
containing none of the characters backslash, slash, colon, asterisk,
question mark, double quote, less-than, greater-than, pipe, and no spaces
(each replaced by an underscore), of length at most 100 bytes, longer
results being truncated at the 100th byte. -/
theorem sanitizeFilename_spec (s : List ℕ) :
    (∀ b ∈ sanitizeFilename s, b ∉ illegalFilenameBytes ∧ b ≠ 32)
    ∧ (sanitizeFilename s).length ≤ 100
    ∧ sanitizeFilename s
        = (s.map (fun b => if b ∈ illegalFilenameBytes ∨ b = 32 then 95 else b)).take 100 := by
  have hmap :
      (s.map (fun b => if b ∈ illegalFilenameBytes then 95 else b)).map
          (fun b => if b = 32 then 95 else b)
        = s.map (fun b => if b ∈ illegalFilenameBytes ∨ b = 32 then 95 else b) := by
    rw [List.map_map]
    refine List.map_congr_left (fun b _ => ?_)
    by_cases hb : b ∈ illegalFilenameBytes
    · simp [hb, Function.comp, illegalFilenameBytes] at *
      rcases hb with h | h | h | h | h | h | h | h | h <;> simp [h]
    · by_cases hb32 : b = 32 <;> simp [hb, hb32, Function.comp]
  have hsan :
      sanitizeFilename s
        = (s.map (fun b => if b ∈ illegalFilenameBytes ∨ b = 32 then 95 else b)).take 100 := by
    rw [sanitizeFilename]
    simp only [hmap]
    split
    · rfl
    · next h =>
      rw [List.take_of_length_le]
      omega
  refine ⟨?_, ?_, hsan⟩
  · intro b hb
    rw [hsan] at hb
    have hb' := List.mem_of_mem_take hb
    rcases List.mem_map.mp hb' with ⟨a, _, ha⟩
    by_cases hcase : a ∈ illegalFilenameBytes ∨ a = 32
    · rw [if_pos hcase] at ha
      subst ha
      refine ⟨by decide, by decide⟩
    · rw [if_neg hcase] at ha
      subst ha
      push_neg at hcase
      exact hcase
  · rw [hsan]
    simp

/-- Claim C1: for positive page height H and viewport height V, the number
of tile captures is the ceiling of H / V with a minimum of 1; when more
than one tile is captured, tile i scrolls to offset i * V for every tile
before the last, and the last tile's offset is clamped to max 0 (H - V)
whenever its unclamped offset plus V would exceed H; in particular H = 1000
and V = 300 give 4 tiles at offsets 0, 300, 600, 700. -/
theorem tileOffsets_count_and_offsets (H V : ℚ) (_hH : 0 < H) (hV : 0 < V) :
    ((tileOffsets H V).length : ℤ) = tileCount H V
    ∧ (1 < tileCount H V →
        (∀ i : ℕ, (i : ℤ) < tileCount H V - 1 →
          (tileOffsets H V)[i]? = some ((i : ℚ) * V))
        ∧ (tileOffsets H V)[(tileCount H V).toNat - 1]?
            = some (if ((tileCount H V : ℚ) - 1) * V + V > H then max 0 (H - V)
                    else ((tileCount H V : ℚ) - 1) * V))
    ∧ tileCount 1000 300 = 4
    ∧ tileOffsets 1000 300 = [0, 300, 600, 700] := by
  have hcount1 : 1 ≤ tileCount H V := le_max_right _ _
  have hnn : ((tileCount H V).toNat : ℤ) = tileCount H V := Int.toNat_of_nonneg (by omega)
  have hc4 : tileCount 1000 300 = 4 := by
    have : ⌈(1000 : ℚ) / 300⌉ = 4 := by
      rw [Int.ceil_eq_iff]
      norm_num
    rw [tileCount, this]
    decide
  have hoff4 : tileOffsets 1000 300 = [0, 300, 600, 700] := by
    rw [tileOffsets, if_neg]
    · rw [hc4]
      show List.map (tileOffset 1000 300 4) (List.range 4) = _
      rw [show List.range 4 = [0, 1, 2, 3] from rfl]
      simp only [List.map_cons, List.map_nil, tileOffset]
      norm_num
    · rw [hc4]
      push_neg
      constructor
      · norm_num
      · decide
  by_cases hb : H ≤ V ∨ tileCount H V = 1
  · have hcount : tileCount H V = 1 := by
      rcases hb with hb | hb
      · have hdiv : H / V ≤ 1 := (div_le_one hV).mpr hb
        have : ⌈H / V⌉ ≤ 1 := Int.ceil_le.mpr (by exact_mod_cast hdiv)
        rw [tileCount]
        omega
      · exact hb
    refine ⟨?_, ?_, hc4, hoff4⟩
    · rw [tileOffsets, if_pos hb, hcount]
      rfl
    · intro hlt
      omega
  · push_neg at hb
    obtain ⟨hVH, hne⟩ := hb
    have hcount2 : 2 ≤ tileCount H V := by omega
    have hn2 : 2 ≤ (tileCount H V).toNat := by omega
    have hoffs :
        tileOffsets H V
          = (List.range (tileCount H V).toNat).map
              (tileOffset H V (tileCount H V).toNat) := by
      rw [tileOffsets, if_neg]
      push_neg
      exact ⟨hVH, hne⟩
    refine ⟨?_, fun _ => ⟨?_, ?_⟩, hc4, hoff4⟩
    · rw [hoffs]
      simp [hnn]
    · intro i hi
      have hilt : i < (tileCount H V).toNat := by omega
      rw [hoffs, List.getElem?_map, List.getElem?_range hilt]
      have hine : i ≠ (tileCount H V).toNat - 1 := by omega
      simp only [Option.map_some']
      rw [tileOffset, if_neg]
      intro hcontra
      exact hine hcontra.1
    · have hlast : (tileCount H V).toNat - 1 < (tileCount H V).toNat := by omega
      rw [hoffs, List.getElem?_map, List.getElem?_range hlast]
      simp only [Option.map_some']
      have hcast : (((tileCount H V).toNat - 1 : ℕ) : ℚ) = (tileCount H V : ℚ) - 1 := by
        rw [Nat.cast_sub (by omega)]
        rw [show ((tileCount H V).toNat : ℚ) = (((tileCount H V).toNat : ℤ) : ℚ) by push_cast; ring]
        rw [hnn]
        norm_num
      rw [tileOffset]
      simp only [hcast, true_and, if_pos, eq_self_iff_true]

/-- Witness for `tileOffsets_count_and_offsets` at pageHeight 1000,
viewportHeight 300. -/
theorem tileOffsets_count_and_offsets_witness :
    (0 : ℚ) < 1000 ∧ (0 : ℚ) < 300
    ∧ (((tileOffsets 1000 300).length : ℤ) = tileCount 1000 300
        ∧ (1 < tileCount 1000 300 →
            (∀ i : ℕ, (i : ℤ) < tileCount 1000 300 - 1 →
              (tileOffsets 1000 300)[i]? = some ((i : ℚ) * 300))
            ∧ (tileOffsets 1000 300)[(tileCount 1000 300).toNat - 1]?
                = some (if ((tileCount 1000 300 : ℚ) - 1) * 300 + 300 > 1000
                        then max 0 (1000 - 300)
                        else ((tileCount 1000 300 : ℚ) - 1) * 300))
        ∧ tileCount 1000 300 = 4
        ∧ tileOffsets 1000 300 = [0, 300, 600, 700]) :=
  ⟨by decide, by decide, tileOffsets_count_and_offsets 1000 300 (by decide) (by decide)⟩

/-- Claim C2: whenever the measured page height is at most the viewport
height, the tiled-capture routine captures exactly one tile at scroll
offset 0 and writes exactly one tile image, numbered 1; in particular
pageHeight 250 with viewportHeight 300 gives tile count 1. -/
theorem tileOffsets_single_when_page_fits (H V : ℚ) (hHV : H ≤ V) :
    tileOffsets H V = [0] ∧ tileNumbers H V = [1] ∧ tileCount 250 300 = 1 := by
  refine ⟨?_, ?_, ?_⟩
  · rw [tileOffsets, if_pos (Or.inl hHV)]
  · rw [tileNumbers, if_pos (Or.inl hHV)]
  · rw [tileCount]
    have : ⌈(250 : ℚ) / 300⌉ = 1 := by
      rw [Int.ceil_eq_iff]
      norm_num
    rw [this, max_self]

/-- Witness for `tileOffsets_single_when_page_fits` at pageHeight 250,
viewportHeight 300. -/
theorem tileOffsets_single_when_page_fits_witness :
    tileOffsets 250 300 = [0] ∧ tileNumbers 250 300 = [1] ∧ tileCount 250 300 = 1 :=
  tileOffsets_single_when_page_fits 250 300 (by decide)

/-! ## Theorems: domain extraction -/

/-- Cutting at the first occurrence of a character, wherever it is, equals
takeWhile on the characters before the first occurrence. -/
theorem cutAtCharClaimed_eq_takeWhile (ch : Char) :
    ∀ l : Str, cutAtCharClaimed ch l = l.takeWhile (fun a => !(a == ch))
  | [] => by simp [cutAtCharClaimed]
  | a :: t => by
    rw [cutAtCharClaimed, List.findIdx?_cons, List.findIdx?_succ]
    by_cases h : a = ch
    · simp [h]
    · have hb : (a == ch) = false := by simp [h]
      have iht := cutAtCharClaimed_eq_takeWhile ch t
      rw [cutAtCharClaimed] at iht
      cases ht : t.findIdx? (fun a => a == ch) with
      | none =>
        rw [ht] at iht
        simp [hb, ht, ← iht]
      | some j =>
        rw [ht] at iht
        simp [hb, ht, List.take_succ_cons, ← iht]

/-- The guarded cut used by extractDomainFromURL keeps the whole string
when its first character is the cut character, and otherwise behaves as
the unguarded cut. -/
theorem cutAtCharAfterStart_eq (ch : Char) (l : Str) :
    cutAtCharAfterStart ch l
      = if l.head? = some ch then l else l.takeWhile (fun a => !(a == ch)) := by
  cases l with
  | nil => simp [cutAtCharAfterStart]
  | cons a t =>
    rw [cutAtCharAfterStart, List.findIdx?_cons, List.findIdx?_succ]
    by_cases h : a = ch
    · simp [h]
    · have hb : (a == ch) = false := by simp [h]
      have iht := cutAtCharClaimed_eq_takeWhile ch t
      rw [cutAtCharClaimed] at iht
      have hhead : ¬ (a :: t).head? = some ch := by simp [h]
      cases ht : t.findIdx? (fun a => a == ch) with
      | none =>
        rw [ht] at iht
        simp [hb, ht, hhead, ← iht]
      | some j =>
        rw [ht] at iht
        simp [hb, ht, hhead, List.take_succ_cons, ← iht, h]

/-- Claim C9 counterexample: for the target URL "http://:8080", the code
keeps the leading colon segment (the cut at the first colon is performed
only when the colon is not the first character), while the claim's
unconditional "remove everything from the first colon onward" yields the
empty host.  The two computations disagree. -/
theorem extractDomain_counterexample :
    extractDomainFromURL ("http://:8080".toList) = (":8080".toList)
    ∧ claimedDomainFromURL ("http://:8080".toList) = []
    ∧ extractDomainFromURL ("http://:8080".toList)
        ≠ claimedDomainFromURL ("http://:8080".toList) := by
  refine ⟨by decide, by decide, by decide⟩

/-- Claim C9 as amended: for a cookie with an absent (empty) domain the
domain used is extractDomainFromURL of the target URL, which strips a
leading scheme and a leading "www.", then removes everything from the
first slash onward unless that slash is the leading character, then
removes everything from the first colon onward unless that colon is the
leading character; a cookie with an absent path is set with path "/". -/
theorem extractDomain_and_cookie_defaults (url : Str) (c : Cookie) :
    extractDomainFromURL url
      = (let u1 :=
           if ("http://".toList).isPrefixOf url then url.drop 7
           else if ("https://".toList).isPrefixOf url then url.drop 8
           else url
         let u2 := if ("www.".toList).isPrefixOf u1 then u1.drop 4 else u1
         let u3 :=
           if u2.head? = some '/' then u2
           else u2.takeWhile (fun a => !(a == '/'))
         if u3.head? = some ':' then u3
         else u3.takeWhile (fun a => !(a == ':')))
    ∧ (c.domain = [] → effectiveDomain c url = extractDomainFromURL url)
    ∧ (c.path = [] → effectivePath c = "/".toList) := by
  refine ⟨?_, ?_, ?_⟩
  · rw [extractDomainFromURL]
    simp only [cutAtCharAfterStart_eq]
  · intro h
    rw [effectiveDomain, if_pos h]
  · intro h
    rw [effectivePath, if_pos h]

/-- Witness for `extractDomain_and_cookie_defaults`: a cookie with empty
domain and path against the URL "https://www.example.com:8443/p". -/
theorem extractDomain_and_cookie_defaults_witness :
    effectiveDomain ⟨"n".toList, "v".toList, [], [], false, false⟩
        ("https://www.example.com:8443/p".toList)
      = extractDomainFromURL ("https://www.example.com:8443/p".toList)
    ∧ effectivePath ⟨"n".toList, "v".toList, [], [], false, false⟩ = "/".toList :=
  ⟨(extractDomain_and_cookie_defaults ("https://www.example.com:8443/p".toList)
      ⟨"n".toList, "v".toList, [], [], false, false⟩).2.1 rfl,
   (extractDomain_and_cookie_defaults ("https://www.example.com:8443/p".toList)
      ⟨"n".toList, "v".toList, [], [], false, false⟩).2.2 rfl⟩

/-! ## Theorems: state priming -/

/-- In an association list with pairwise-distinct keys, find? by key
returns the unique pair carrying that key. -/
theorem find?_keys_nodup (k v : Str) :
    ∀ l : List (Str × Str), (l.map Prod.fst).Nodup → (k, v) ∈ l →
      l.find? (fun p => p.1 = k) = some (k, v)
  | [], _, hmem => absurd hmem (List.not_mem_nil _)
  | a :: t, hnd, hmem => by
    rw [List.map_cons, List.nodup_cons] at hnd
    rcases List.mem_cons.mp hmem with h | h
    · subst h
      rw [List.find?_cons_of_pos]
      simp
    · have hk : a.1 ≠ k := by
        intro hak
        exact hnd.1 (hak ▸ List.mem_map.mpr ⟨(k, v), h, rfl⟩)
      rw [List.find?_cons_of_neg]
      · exact find?_keys_nodup k v t hnd.2 h
      · simp [hk]

/-- Go-map lookup in a pair list with pairwise-distinct keys returns the
value stored with the key. -/
theorem goMapLookup_eq (l : List (Str × Str)) (k v : Str)
    (hnd : (l.map Prod.fst).Nodup) (hmem : (k, v) ∈ l) :
    goMapLookup l k = some v := by
  rw [goMapLookup, find?_keys_nodup k v l.reverse ?_ (List.mem_reverse.mpr hmem)]
  · rfl
  · rw [List.map_reverse]
    exact List.nodup_reverse.mpr hnd

/-- When every configured localStorage entry already holds its value, the
sequential pass leaves the store unchanged and reports no change. -/
theorem applyLocalStorage_of_all_match (store : List (Str × Str)) :
    ∀ entries : List LocalStorageEntry,
      (∀ e ∈ entries, lsGet store e.key = some e.value) →
      applyLocalStorage store entries = (store, false)
  | [], _ => rfl
  | e :: rest, h => by
    rw [applyLocalStorage, if_pos (h e (List.mem_cons_self e rest))]
    exact applyLocalStorage_of_all_match store rest
      (fun x hx => h x (List.mem_cons_of_mem e hx))

/-- Claim C3 counterexample: a target whose single configured cookie is
already present in the session with the same (name, path, domain) identity
and the same value, and which configures no localStorage; the changed flag
stays unset, yet the page IS reloaded, because the cookie's name coincides
with a configured default cookie's name (screenshoter.go line 338 reloads
on `needsRefresh || defaultCookiesApplied`). -/
theorem priming_reload_counterexample :
    (∀ c ∈ ([⟨"promo".toList, "1".toList, [], [], false, false⟩] : List Cookie),
      ∃ e ∈ ([⟨"promo".toList, "1".toList, "example.com".toList, "/".toList⟩] :
          List SessionCookie),
        e.name = c.name ∧ e.path = effectivePath c
          ∧ e.domain = effectiveDomain c ("https://example.com".toList)
          ∧ e.value = c.value)
    ∧ (setCookiesAndLocalStorage
        [⟨"promo".toList, "1".toList, [], [], false, false⟩]
        ⟨"t".toList, "https://example.com".toList, [], 0,
          [⟨"promo".toList, "1".toList, [], [], false, false⟩], [], []⟩
        [⟨"promo".toList, "1".toList, "example.com".toList, "/".toList⟩]
        []).needsRefresh = false
    ∧ (setCookiesAndLocalStorage
        [⟨"promo".toList, "1".toList, [], [], false, false⟩]
        ⟨"t".toList, "https://example.com".toList, [], 0,
          [⟨"promo".toList, "1".toList, [], [], false, false⟩], [], []⟩
        [⟨"promo".toList, "1".toList, "example.com".toList, "/".toList⟩]
        []).reloaded = true := by
  refine ⟨by decide, by decide, by decide⟩

/-- Claim C3 as amended: when every configured cookie is already present
in the session with the same (name, path, domain) identity and the same
value (the session's cookies having pairwise-distinct concatenated
name+path+domain lookup keys), every configured localStorage key already
holds its value, and additionally no configured cookie shares its name
with a configured default cookie, the priming routine sets no changed flag
and performs no reload. -/
theorem priming_idempotent (defaults : List Cookie) (u : URLConfig)
    (existing : List SessionCookie) (store : List (Str × Str))
    (hkeys : (existing.map sessionCookieKey).Nodup)
    (hcookies : ∀ c ∈ u.cookies, ∃ e ∈ existing,
        e.name = c.name ∧ e.path = effectivePath c ∧ e.domain = effectiveDomain c u.url
          ∧ e.value = c.value)
    (hstore : ∀ en ∈ u.localStorage, lsGet store en.key = some en.value)
    (hnames : ∀ c ∈ u.cookies, ∀ d ∈ defaults, c.name ≠ d.name) :
    (setCookiesAndLocalStorage defaults u existing store).needsRefresh = false
    ∧ (setCookiesAndLocalStorage defaults u existing store).reloaded = false := by
  have hcc : u.cookies.any (cookieNeedsSet existing u.url) = false := by
    rw [List.any_eq_false]
    intro c hc
    obtain ⟨e, he, hn, hp, hd, hv⟩ := hcookies c hc
    have hkey : sessionCookieKey e = configCookieKey c u.url := by
      rw [sessionCookieKey, configCookieKey, hn, hp, hd]
    have hmem : (configCookieKey c u.url, c.value) ∈ existingCookiePairs existing := by
      rw [existingCookiePairs]
      exact List.mem_map.mpr ⟨e, he, by rw [hkey, hv]⟩
    have hnd : ((existingCookiePairs existing).map Prod.fst).Nodup := by
      rw [existingCookiePairs, List.map_map]
      have hfun : (Prod.fst ∘ fun c : SessionCookie => (sessionCookieKey c, c.value))
          = sessionCookieKey := rfl
      rw [hfun]
      exact hkeys
    have hlook := goMapLookup_eq _ _ _ hnd hmem
    rw [cookieNeedsSet, hlook]
    simp
  have hsc : (applyLocalStorage store u.localStorage).2 = false := by
    rw [applyLocalStorage_of_all_match store u.localStorage hstore]
  have hdc : u.cookies.any (fun c => defaults.any (fun d => c.name == d.name)) = false := by
    rw [List.any_eq_false]
    intro c hc
    rw [Bool.not_eq_true, List.any_eq_false]
    intro d hd
    simp [hnames c hc d hd]
  refine ⟨?_, ?_⟩ <;>
    simp [setCookiesAndLocalStorage, hcc, hsc, hdc]

/-- Witness for `priming_idempotent`: a target with one already-matching
cookie and one already-matching localStorage entry, no default cookies. -/
theorem priming_idempotent_witness :
    (setCookiesAndLocalStorage []
      ⟨"t".toList, "https://example.com".toList, [], 0,
        [⟨"promo".toList, "1".toList, [], [], false, false⟩],
        [⟨"k".toList, "v".toList⟩], []⟩
      [⟨"promo".toList, "1".toList, "example.com".toList, "/".toList⟩]
      [("k".toList, "v".toList)]).needsRefresh = false
    ∧ (setCookiesAndLocalStorage []
      ⟨"t".toList, "https://example.com".toList, [], 0,
        [⟨"promo".toList, "1".toList, [], [], false, false⟩],
        [⟨"k".toList, "v".toList⟩], []⟩
      [⟨"promo".toList, "1".toList, "example.com".toList, "/".toList⟩]
      [("k".toList, "v".toList)]).reloaded = false :=
  priming_idempotent _ _ _ _ (by decide) (by decide) (by decide) (by decide)

/-! ## Theorems: audit records -/

/-- Claim C4 counterexample: a full-page capture whose target configures
one cookie that is already present with the same value: no cookie or
localStorage value changes during priming (no changed flag), yet an
"after" audit record is emitted, because the priming routine ends by
writing its record unconditionally (screenshoter.go line 376). -/
theorem audit_after_counterexample :
    (setCookiesAndLocalStorage []
      ⟨"t".toList, "https://example.com".toList, [], 0,
        [⟨"promo".toList, "1".toList, [], [], false, false⟩], [], []⟩
      [⟨"promo".toList, "1".toList, "example.com".toList, "/".toList⟩]
      []).needsRefresh = false
    ∧ "after".toList ∈ fullPageAuditStages
        ⟨"t".toList, "https://example.com".toList, [], 0,
          [⟨"promo".toList, "1".toList, [], [], false, false⟩], [], []⟩ := by
  refine ⟨by decide, by decide⟩

/-- Claim C4 as amended: every full-page capture emits exactly one
"before" audit record, prior to priming; an "after" record is emitted if
and only if the priming routine runs at all, i.e. iff at least one cookie
or localStorage entry is configured for the target — regardless of whether
any value actually changed. -/
theorem audit_records (u : URLConfig) :
    (fullPageAuditStages u).count ("before".toList) = 1
    ∧ ("after".toList ∈ fullPageAuditStages u
        ↔ (u.cookies ≠ [] ∨ u.localStorage ≠ [])) := by
  rw [fullPageAuditStages]
  by_cases h : u.cookies ≠ [] ∨ u.localStorage ≠ []
  · rw [if_pos h]
    refine ⟨by decide, ?_⟩
    simp only [h, iff_true]
    decide
  · rw [if_neg h]
    refine ⟨by decide, ?_⟩
    simp only [h, iff_false]
    decide

/-! ## Theorems: full-page capture -/

/-- Claim C7 counterexample: with configured viewport width 1280 and
measured page dimensions 2000 x 3000, the code overrides the device
metrics to width 1280 — the configured viewport width — not to the
measured width 2000 the claim prescribes (screenshoter.go line 941 uses
`viewport.Width` and ignores the measured scroll width). -/
theorem fullPageOverride_counterexample :
    fullPageOverrideDims 1280 2000 3000 = (1280, 3000)
    ∧ claimedOverrideDims 2000 3000 = (2000, 3000)
    ∧ fullPageOverrideDims 1280 2000 3000 ≠ claimedOverrideDims 2000 3000 := by
  refine ⟨by decide, by decide, by decide⟩

/-- Claim C7 as amended: the full-page capture overrides the device
metrics to the configured viewport width (the measured scroll width is
ignored) and to the measured scroll height capped at 16384, and captures
once; if the capture fails while the effective height exceeds 8192, it
retries exactly once at height 8192, and a capture failure at height at
most 8192 is returned without any retry. -/
theorem fullPageCapture_retry (vw mw mh : ℤ) (ok : ℤ → Bool) :
    fullPageOverrideDims vw mw mh = (vw, min mh 16384)
    ∧ (ok (fullPageTargetHeight mh) = true →
        fullPageCaptureAttempts mh ok = ([fullPageTargetHeight mh], true))
    ∧ (ok (fullPageTargetHeight mh) = false → fullPageTargetHeight mh > 8192 →
        fullPageCaptureAttempts mh ok = ([fullPageTargetHeight mh, 8192], ok 8192))
    ∧ (ok (fullPageTargetHeight mh) = false → ¬ fullPageTargetHeight mh > 8192 →
        fullPageCaptureAttempts mh ok = ([fullPageTargetHeight mh], false)) := by
  refine ⟨?_, ?_, ?_, ?_⟩
  · rw [fullPageOverrideDims, fullPageTargetHeight]
    split
    · next h => rw [min_eq_right (by omega)]
    · next h => rw [min_eq_left (by omega)]
  · intro hok
    rw [fullPageCaptureAttempts, if_pos hok]
  · intro hok hgt
    rw [fullPageCaptureAttempts, if_neg (by rw [hok]; exact Bool.false_ne_true),
      if_pos hgt]
  · intro hok hle
    rw [fullPageCaptureAttempts, if_neg (by rw [hok]; exact Bool.false_ne_true),
      if_neg hle]

/-- Witness for `fullPageCapture_retry`: a 20000-pixel-high page with a
capture oracle that only succeeds at heights of at most 8192: the first
attempt runs at the capped height 16384, fails, and is retried once at
8192. -/
theorem fullPageCapture_retry_witness :
    fullPageCaptureAttempts 20000 (fun h => decide (h ≤ 8192))
      = ([fullPageTargetHeight 20000, 8192],
          (fun h : ℤ => decide (h ≤ 8192)) 8192) :=
  (fullPageCapture_retry 1280 2000 20000 (fun h => decide (h ≤ 8192))).2.2.1
    (by decide) (by decide)

/-! ## Theorems: configuration cookie defaults -/

/-- Claim C8: after validation, a target keeps exactly its own cookie list
whenever it has at least one URL-specific cookie (so a target cookie named
X always wins over a default cookie named X); the default cookie set is
copied onto a target only when it has no cookies and references no
profile; and under a profile reference the profile's cookies apply only
when the target has none of its own — default cookies never apply there. -/
theorem cookieDefaultsPrecedence (cfg : Config) (u r : URLConfig)
    (hok : applyCookieDefaults cfg u = Except.ok r) :
    (u.cookies ≠ [] → r.cookies = u.cookies)
    ∧ (u.cookieProfileID = [] → u.cookies = [] → cfg.defaultCookies ≠ [] →
        r.cookies = cfg.defaultCookies)
    ∧ (u.cookieProfileID ≠ [] →
        ∃ p, profileLookup cfg.cookieProfiles u.cookieProfileID = some p
          ∧ (u.cookies = [] → r.cookies = p.cookies)
          ∧ (u.cookies ≠ [] → r.cookies = u.cookies)) := by
  rw [applyCookieDefaults] at hok
  by_cases hid : u.cookieProfileID = []
  · rw [if_neg (by simp [hid])] at hok
    cases hok
    refine ⟨?_, ?_, ?_⟩
    · intro h
      simp [h]
    · intro _ hcu hdc
      simp [hcu, hdc]
    · intro h
      exact absurd hid h
  · rw [if_pos hid] at hok
    cases hlook : profileLookup cfg.cookieProfiles u.cookieProfileID with
    | none =>
      rw [hlook] at hok
      simp at hok
    | some p =>
      rw [hlook] at hok
      cases hok
      refine ⟨?_, ?_, ?_⟩
      · intro h
        simp [h]
      · intro h
        exact absurd h hid
      · intro _
        refine ⟨p, rfl, ?_, ?_⟩
        · intro hc
          simp [hc]
        · intro hc
          simp [hc]

/-- Witness for `cookieDefaultsPrecedence`: a target with no cookies and
no profile reference receives the configured default cookie set. -/
theorem cookieDefaultsPrecedence_witness :
    (⟨"t".toList, "u".toList, [], 0,
        [⟨"x".toList, "1".toList, [], [], false, false⟩], [], []⟩ : URLConfig).cookies
      = (⟨[], [⟨"x".toList, "1".toList, [], [], false, false⟩], [], [], 1⟩ :
          Config).defaultCookies :=
  (cookieDefaultsPrecedence
      ⟨[], [⟨"x".toList, "1".toList, [], [], false, false⟩], [], [], 1⟩
      ⟨"t".toList, "u".toList, [], 0, [], [], []⟩
      ⟨"t".toList, "u".toList, [], 0,
        [⟨"x".toList, "1".toList, [], [], false, false⟩], [], []⟩
      (by rfl)).2.1 rfl rfl (by decide)

/-! ## Theorems: concurrency bounds -/

/-- Core semaphore invariant: along any admissible event trace of a
bounded semaphore, the number of held slots never exceeds the capacity. -/
theorem holdersAfter_length_le (cap : ℕ) :
    ∀ (pre suf : List SemEvent) (hs : List ℕ),
      semTraceOk cap hs (pre ++ suf) → hs.length ≤ cap →
      (holdersAfter hs pre).length ≤ cap
  | [], _, _, _, hlen => hlen
  | SemEvent.acquire t :: pre, suf, hs, hok, _ => by
    rw [List.cons_append, semTraceOk, semTraceOkB, Bool.and_eq_true,
      decide_eq_true_eq] at hok
    exact holdersAfter_length_le cap pre suf (t :: hs) hok.2
      (by simpa using hok.1)
  | SemEvent.release t :: pre, suf, hs, hok, hlen => by
    rw [List.cons_append, semTraceOk, semTraceOkB, Bool.and_eq_true] at hok
    exact holdersAfter_length_le cap pre suf (hs.erase t) hok.2
      (le_trans (List.length_erase_le t hs) hlen)

/-- Claim C5: along any admissible execution of the three Go semaphore
pools — the per-run target pool of capacity Concurrency (CaptureURLs line
1365), the per-target viewport pool of capacity 3 (CaptureURL line 403)
and the per-viewport tile pool of capacity 4 (captureViewportScreenshots
line 1076) — the number of tasks simultaneously holding a slot (each
task's capture work runs between its acquire and its release) never
exceeds the pool's capacity at any point of the trace. -/
theorem concurrency_bounds (cfg : Config)
    (trTargets trViewports trTiles : List SemEvent)
    (h1 : semTraceOk (targetSemCapacity cfg) [] trTargets)
    (h2 : semTraceOk viewportSemCapacity [] trViewports)
    (h3 : semTraceOk tileSemCapacity [] trTiles) :
    (∀ pre suf, trTargets = pre ++ suf →
        (holdersAfter [] pre).length ≤ targetSemCapacity cfg)
    ∧ (∀ pre suf, trViewports = pre ++ suf →
        (holdersAfter [] pre).length ≤ viewportSemCapacity)
    ∧ (∀ pre suf, trTiles = pre ++ suf →
        (holdersAfter [] pre).length ≤ tileSemCapacity) := by
  refine ⟨?_, ?_, ?_⟩
  · intro pre suf htr
    exact holdersAfter_length_le _ pre suf [] (htr ▸ h1) (Nat.zero_le _)
  · intro pre suf htr
    exact holdersAfter_length_le _ pre suf [] (htr ▸ h2) (Nat.zero_le _)
  · intro pre suf htr
    exact holdersAfter_length_le _ pre suf [] (htr ▸ h3) (Nat.zero_le _)

/-- Witness for `concurrency_bounds`: a run with concurrency 2 and
concrete admissible traces on each pool. -/
theorem concurrency_bounds_witness :
    (∀ pre suf,
        ([SemEvent.acquire 0, SemEvent.acquire 1, SemEvent.release 0,
          SemEvent.release 1] : List SemEvent) = pre ++ suf →
        (holdersAfter [] pre).length ≤ targetSemCapacity ⟨[], [], [], [], 2⟩)
    ∧ (∀ pre suf,
        ([SemEvent.acquire 5, SemEvent.release 5] : List SemEvent) = pre ++ suf →
        (holdersAfter [] pre).length ≤ viewportSemCapacity)
    ∧ (∀ pre suf,
        ([SemEvent.acquire 7, SemEvent.acquire 8, SemEvent.release 8,
          SemEvent.release 7] : List SemEvent) = pre ++ suf →
        (holdersAfter [] pre).length ≤ tileSemCapacity) :=
  concurrency_bounds ⟨[], [], [], [], 2⟩ _ _ _ (by decide) (by decide) (by decide)

/-! ## Theorems: error collection -/

/-- The first element of a filterMap-id list points back to the first
non-none entry of the original list: everything before it is `none`. -/
theorem firstCollectedError_first {E : Type} :
    ∀ (rs : List (Option E)) (e : E), firstCollectedError rs = some e →
      ∃ i, rs[i]? = some (some e) ∧ ∀ j : ℕ, j < i → rs[j]? = some none
  | [], e, h => by
    simp [firstCollectedError, collectedErrors] at h
  | none :: t, e, h => by
    rw [firstCollectedError, collectedErrors, List.filterMap_cons_none rfl]
      at h
    obtain ⟨i, hi, hbefore⟩ := firstCollectedError_first t e h
    refine ⟨i + 1, by simpa using hi, ?_⟩
    intro j hj
    cases j with
    | zero => simp
    | succ k =>
      have hk : k < i := by omega
      simpa using hbefore k hk
  | some x :: t, e, h => by
    have hx : x = e := by
      simp [firstCollectedError, collectedErrors] at h
      exact h
    subst hx
    exact ⟨0, by simp, fun j hj => absurd hj (Nat.not_lt_zero j)⟩

/-- Claim C6: every scheduled task runs and contributes an outcome
regardless of its siblings' failures (the per-level loops wait for all of
them before looking at the error channel); the run's final result is nil
exactly when no task failed, and otherwise it is the first error in
collection order — every outcome before it was a success. -/
theorem errorCollection_spec (E : Type) (tasks : List (Unit → Option E)) :
    (runAllTasks tasks).length = tasks.length
    ∧ (firstCollectedError (runAllTasks tasks) = none ↔
        ∀ r ∈ runAllTasks tasks, r = none)
    ∧ (∀ e, firstCollectedError (runAllTasks tasks) = some e →
        ∃ i, (runAllTasks tasks)[i]? = some (some e)
          ∧ ∀ j : ℕ, j < i → (runAllTasks tasks)[j]? = some none) := by
  refine ⟨by rw [runAllTasks, List.length_map], ?_, ?_⟩
  · rw [firstCollectedError, List.head?_eq_none_iff, collectedErrors,
      List.filterMap_eq_nil_iff]
    simp
  · intro e h
    exact firstCollectedError_first (runAllTasks tasks) e h

/-- Witness for `errorCollection_spec`: three tasks of which the second
and third fail; the final result is the second task's error 7. -/
theorem errorCollection_spec_witness :
    firstCollectedError (runAllTasks
        ([fun _ => none, fun _ => some 7, fun _ => some 9] :
          List (Unit → Option ℕ))) = some 7
    ∧ ∃ i,
        (runAllTasks ([fun _ => none, fun _ => some 7, fun _ => some 9] :
          List (Unit → Option ℕ)))[i]? = some (some 7)
        ∧ ∀ j : ℕ, j < i →
            (runAllTasks ([fun _ => none, fun _ => some 7, fun _ => some 9] :
              List (Unit → Option ℕ)))[j]? = some none :=
  ⟨rfl,
    (errorCollection_spec ℕ [fun _ => none, fun _ => some 7, fun _ => some 9]).2.2
      7 rfl⟩

end ProofScape
